import Mathlib

/-!
# Verification of the quant-based fundamental analysis engine

A shallow embedding of `src/quant_based_fundamental_analysis.py` (class
`FundamentalAnalyzer` and the helper `_calculate_cagr`), together with proofs
about the embedded definitions.

Modelling conventions, fixed by the source:

* Statement-table cells come out of `pd.to_numeric(..., errors='coerce')`, so a
  cell extracted by `Series.get` is either a boxed `numpy.float64` (possibly
  `nan`, when the original string failed to parse) or Python `None` (when the
  column is absent from the table altogether).  A cell is therefore an
  `Option PyFloat`, where `PyFloat` is an exact-rational model of the float
  values actually reachable: a finite value, `nan`, or a signed infinity.
* Arithmetic between `numpy.float64` values follows IEEE-754 semantics and does
  NOT raise on division by zero (numpy only emits a `RuntimeWarning`); this is
  modelled by the total operations on `PyFloat`.  Arithmetic or an ordered
  comparison involving Python `None` raises a `TypeError`; this is modelled by
  `Except Unit` results, and the engine-level `try/except` blocks of the source
  turn any such error into "no result" (`none` / dropped metrics).
* Python truthiness of a cell: `None` and `0.0` are falsy; every other float,
  including `nan` and the infinities, is truthy.
-/

/-- Exact model of the `numpy.float64` values reachable in the program: a
finite value (kept as an exact rational), `nan`, `+inf` or `-inf`. -/
inductive PyFloat where
  | num (q : ℚ)
  | nan
  | inf
  | ninf
deriving DecidableEq, Repr

namespace PyFloat

/-- IEEE addition (as performed by numpy on `float64` scalars). -/
def add : PyFloat → PyFloat → PyFloat
  | num a, num b => num (a + b)
  | nan, _ => nan
  | _, nan => nan
  | inf, ninf => nan
  | ninf, inf => nan
  | inf, _ => inf
  | _, inf => inf
  | ninf, _ => ninf
  | _, ninf => ninf

/-- IEEE subtraction. -/
def sub : PyFloat → PyFloat → PyFloat
  | num a, num b => num (a - b)
  | nan, _ => nan
  | _, nan => nan
  | inf, inf => nan
  | ninf, ninf => nan
  | inf, _ => inf
  | ninf, _ => ninf
  | _, inf => ninf
  | _, ninf => inf

/-- IEEE multiplication. -/
def mul : PyFloat → PyFloat → PyFloat
  | num a, num b => num (a * b)
  | nan, _ => nan
  | _, nan => nan
  | inf, inf => inf
  | inf, ninf => ninf
  | ninf, inf => ninf
  | ninf, ninf => inf
  | inf, num b => if 0 < b then inf else if b < 0 then ninf else nan
  | num a, inf => if 0 < a then inf else if a < 0 then ninf else nan
  | ninf, num b => if 0 < b then ninf else if b < 0 then inf else nan
  | num a, ninf => if 0 < a then ninf else if a < 0 then inf else nan

/-- IEEE division.  Crucially, `x / 0.0` on `numpy.float64` does NOT raise a
`ZeroDivisionError`: it yields `±inf` (or `nan` for `0/0`) with only a
`RuntimeWarning`.  (The zero reachable in this program is `+0.0`.) -/
def div : PyFloat → PyFloat → PyFloat
  | nan, _ => nan
  | _, nan => nan
  | num a, num b =>
      if b = 0 then (if 0 < a then inf else if a < 0 then ninf else nan)
      else num (a / b)
  | num _, inf => num 0
  | num _, ninf => num 0
  | inf, inf => nan
  | inf, ninf => nan
  | ninf, inf => nan
  | ninf, ninf => nan
  | inf, num b => if b < 0 then ninf else inf
  | ninf, num b => if b < 0 then inf else ninf

/-- Absolute value on floats. -/
def fabs : PyFloat → PyFloat
  | num a => num |a|
  | nan => nan
  | inf => inf
  | ninf => inf

/-- IEEE strict less-than: any comparison with `nan` is `False`. -/
def lt : PyFloat → PyFloat → Bool
  | num a, num b => decide (a < b)
  | nan, _ => false
  | _, nan => false
  | ninf, ninf => false
  | ninf, _ => true
  | _, ninf => false
  | inf, _ => false
  | _, inf => true

/-- IEEE non-strict less-or-equal: any comparison with `nan` is `False`. -/
def le : PyFloat → PyFloat → Bool
  | num a, num b => decide (a ≤ b)
  | nan, _ => false
  | _, nan => false
  | ninf, _ => true
  | _, ninf => false
  | inf, inf => true
  | inf, _ => false
  | _, inf => true

/-- IEEE strict greater-than. -/
def gt (a b : PyFloat) : Bool := lt b a

/-- Python truthiness of a float: `0.0` is falsy; `nan` and `±inf` are truthy. -/
def truthy : PyFloat → Bool
  | num a => decide (a ≠ 0)
  | _ => true

end PyFloat

/-- Python truthiness of an optional cell: `None` is falsy. -/
def truthyOpt : Option PyFloat → Bool
  | some v => v.truthy
  | none => false

/-! ## Statement rows and the overview snapshot -/

/-- The fields of an annual income-statement row used by the engines.
Each field is `none` when the column is absent from the fetched table
(`Series.get` then returns Python `None`). -/
structure IncomeRow where
  netIncome : Option PyFloat := none
  totalRevenue : Option PyFloat := none
  grossProfit : Option PyFloat := none
deriving DecidableEq, Repr

/-- The fields of an annual balance-sheet row used by the engines. -/
structure BalanceRow where
  totalAssets : Option PyFloat := none
  totalShareholderEquity : Option PyFloat := none
  longTermDebt : Option PyFloat := none
  shortTermDebt : Option PyFloat := none
  totalCurrentAssets : Option PyFloat := none
  totalCurrentLiabilities : Option PyFloat := none
  commonStock : Option PyFloat := none
  cashAndCashEquivalentsAtCarryingValue : Option PyFloat := none
deriving DecidableEq, Repr

/-- The fields of an annual cash-flow row used by the engines. -/
structure CashFlowRow where
  operatingCashflow : Option PyFloat := none
  capitalExpenditures : Option PyFloat := none
deriving DecidableEq, Repr

/-- Result of `int(self.overview.get('SharesOutstanding'))` in `run_simple_dcf`:
the key can be absent (`None`), present but not parseable as an integer
(`int(...)` raises `ValueError`), or an integer. -/
inductive SharesField where
  | absent
  | bad
  | val (n : ℤ)
deriving DecidableEq, Repr

/-- An overview snapshot, modelled post-parse.  A ratio field stands for the
result of `float(self.overview.get(KEY, 'N/A'))`: `.error ()` when the key is
absent, is the literal `'N/A'`, or fails to parse (`float(...)` raises
`ValueError`), and `.ok x` when it parses to the float `x`. -/
structure Overview where
  PERatio : Except Unit PyFloat := .error ()
  PriceToBookRatio : Except Unit PyFloat := .error ()
  PriceToSalesRatioTTM : Except Unit PyFloat := .error ()
  DividendYield : Except Unit PyFloat := .error ()
  SharesOutstanding : SharesField := .absent

/-! ## RatioEngine: `FundamentalAnalyzer.calculate_ratios`

The source wraps the whole body in a single `try/except`; the four
`float(...)` parses of overview fields are the only statements in the body
that can raise (the profitability and solvency blocks guard every operand
with Python truthiness and `Series.get` defaults).  A parse failure therefore
aborts the remainder of the body, keeping only the entries already inserted
into `self.ratios`. -/

/-- Python `if net_income and total_revenue: ratios['Net_Profit_Margin'] = net_income / total_revenue`. -/
def netProfitMargin (inc : IncomeRow) : Option PyFloat :=
  match inc.netIncome, inc.totalRevenue with
  | some ni, some rev => if ni.truthy && rev.truthy then some (ni.div rev) else none
  | _, _ => none

/-- Python `if net_income and total_shareholder_equity: ... = net_income / total_shareholder_equity`. -/
def returnOnEquity (inc : IncomeRow) (bal : BalanceRow) : Option PyFloat :=
  match inc.netIncome, bal.totalShareholderEquity with
  | some ni, some eq' => if ni.truthy && eq'.truthy then some (ni.div eq') else none
  | _, _ => none

/-- Python `total_debt = latest_balance.get('longTermDebt', 0) + latest_balance.get('shortTermDebt', 0)`;
`if total_debt and total_shareholder_equity: ... = total_debt / total_shareholder_equity`. -/
def debtToEquity (bal : BalanceRow) : Option PyFloat :=
  let total_debt := (bal.longTermDebt.getD (.num 0)).add (bal.shortTermDebt.getD (.num 0))
  match bal.totalShareholderEquity with
  | some eq' => if total_debt.truthy && eq'.truthy then some (total_debt.div eq') else none
  | none => none

/-- The profitability and solvency entries of `calculate_ratios` (cannot raise). -/
def profitabilityEntries (inc : IncomeRow) (bal : BalanceRow) : List (String × PyFloat) :=
  ((netProfitMargin inc).elim [] fun v => [("Net_Profit_Margin", v)]) ++
  ((returnOnEquity inc bal).elim [] fun v => [("Return_on_Equity (ROE)", v)]) ++
  ((debtToEquity bal).elim [] fun v => [("Debt_to_Equity", v)])

/-- The method `FundamentalAnalyzer.calculate_ratios`: the list of entries the call adds to
`self.ratios`, in insertion order.  A failing `float(...)` parse raises inside
the single `try` block and aborts every statement after it. -/
def calculate_ratios (ov : Overview) (inc : IncomeRow) (bal : BalanceRow) :
    List (String × PyFloat) :=
  match ov.PERatio with
  | .error _ => []
  | .ok pe => ("P/E_Ratio", pe) ::
    match ov.PriceToBookRatio with
    | .error _ => []
    | .ok pb => ("P/B_Ratio", pb) ::
      match ov.PriceToSalesRatioTTM with
      | .error _ => []
      | .ok ps => ("P/S_Ratio", ps) ::
        match ov.DividendYield with
        | .error _ => []
        | .ok dy => ("Dividend_Yield", dy) :: profitabilityEntries inc bal

/-! ## DcfEngine: `FundamentalAnalyzer.run_simple_dcf` -/

/-- The dictionary returned by a successful `run_simple_dcf`. -/
structure DcfResult where
  implied_share_price : PyFloat
  equity_value : PyFloat
  enterprise_value : PyFloat
deriving DecidableEq, Repr

/-- The method `FundamentalAnalyzer.run_simple_dcf(growth_rate, wacc, terminal_growth)`.

The three rates are plain Python floats supplied by the caller, modelled as
exact rationals.  Returns `none` exactly when the source returns `None`:
missing `operatingCashflow`/`capitalExpenditures` (explicit check), or a
missing / unparseable / zero `SharesOutstanding`.  Note that the terminal
value `fcf_5 * (1 + terminal_growth) / (wacc - terminal_growth)` is NOT
guarded: `wacc == terminal_growth` divides a `numpy.float64` by zero, which
yields `±inf`/`nan` (no exception), and those propagate into the returned
enterprise value, equity value and implied share price. -/
def run_simple_dcf (cf : CashFlowRow) (bal : BalanceRow) (shares : SharesField)
    (growth_rate wacc terminal_growth : ℚ) : Option DcfResult :=
  match cf.operatingCashflow, cf.capitalExpenditures with
  | some ocf, some capex =>
    let last_fcf := ocf.sub capex.fabs
    let projected_fcf := [1, 2, 3, 4, 5].map fun i =>
      last_fcf.mul (.num ((1 + growth_rate) ^ i))
    let terminal_value :=
      ((projected_fcf.getLastD (.num 0)).mul (.num (1 + terminal_growth))).div
        (.num (wacc - terminal_growth))
    let discounted_values := (projected_fcf.zip [1, 2, 3, 4, 5]).map fun x =>
      x.1.div (.num ((1 + wacc) ^ x.2))
    let d_terminal_value := terminal_value.div (.num ((1 + wacc) ^ 5))
    let enterprise_value := (discounted_values.foldl PyFloat.add (.num 0)).add d_terminal_value
    let total_debt := (bal.longTermDebt.getD (.num 0)).add (bal.shortTermDebt.getD (.num 0))
    let cash := bal.cashAndCashEquivalentsAtCarryingValue.getD (.num 0)
    let net_debt := total_debt.sub cash
    let equity_value := enterprise_value.sub net_debt
    match shares with
    | .val n => if n = 0 then none
        else some ⟨equity_value.div (.num (n : ℚ)), equity_value, enterprise_value⟩
    | _ => none
  | _, _ => none


/-! ## FScoreEngine: `FundamentalAnalyzer.calculate_piotroski_f_score`

The body runs inside one `try/except`.  Tests 1, 2 and 4 guard their operands
with Python truthiness, so a missing (`None`) operand there just scores 0;
the remaining tests apply `/`, `+` or an ordered comparison directly to
`Series.get` results, so a `None` operand raises a `TypeError`, which the
`except` turns into "no score at all" (`None` returned, nothing recorded).
A `nan` operand (unparseable field) never raises: it flows through IEEE
arithmetic and every comparison on it is `False`, scoring 0 for that test. -/

/-- Test 1: `if net_income_T and net_income_T > 0: score += 1`. -/
def fscoreTest1 (iT : IncomeRow) : ℕ :=
  match iT.netIncome with
  | some v => if v.truthy && v.gt (.num 0) then 1 else 0
  | none => 0

/-- Test 2: `if op_cash_flow_T and op_cash_flow_T > 0: score += 1`. -/
def fscoreTest2 (cT : CashFlowRow) : ℕ :=
  match cT.operatingCashflow with
  | some v => if v.truthy && v.gt (.num 0) then 1 else 0
  | none => 0

/-- Python `avg_assets = (bs_P.get('totalAssets') + bs_P_1.get('totalAssets')) / 2`;
raises a `TypeError` when either cell is `None`. -/
def avgAssets (bP bP1 : BalanceRow) : Except Unit PyFloat :=
  match bP.totalAssets, bP1.totalAssets with
  | some a, some b => .ok ((a.add b).div (.num 2))
  | _, _ => .error ()

/-- Test 3 (higher ROA), evaluated only when both average-asset denominators
compare greater than zero; the inner divisions read `netIncome` at T and T-1
unguarded. -/
def fscoreTest3 (iT iT1 : IncomeRow) (avgT avgT1 : PyFloat) : Except Unit ℕ :=
  if avgT.gt (.num 0) && avgT1.gt (.num 0) then
    match iT.netIncome, iT1.netIncome with
    | some a, some b =>
        .ok (if (a.div avgT).gt (b.div avgT1) then 1 else 0)
    | _, _ => .error ()
  else .ok 0

/-- Test 4: `if op_cash_flow_T and net_income_T and op_cash_flow_T > net_income_T`. -/
def fscoreTest4 (iT : IncomeRow) (cT : CashFlowRow) : ℕ :=
  match cT.operatingCashflow, iT.netIncome with
  | some o, some n => if o.truthy && n.truthy && o.gt n then 1 else 0
  | _, _ => 0

/-- Test 5: long-term-debt / total-assets strictly lower at T than at T-1;
the four cells are read unguarded. -/
def fscoreTest5 (bT bT1 : BalanceRow) : Except Unit ℕ :=
  match bT.longTermDebt, bT.totalAssets, bT1.longTermDebt, bT1.totalAssets with
  | some a, some b, some c, some d =>
      .ok (if (a.div b).lt (c.div d) then 1 else 0)
  | _, _, _, _ => .error ()

/-- Test 6: current ratio strictly higher at T than at T-1; cells read unguarded. -/
def fscoreTest6 (bT bT1 : BalanceRow) : Except Unit ℕ :=
  match bT.totalCurrentAssets, bT.totalCurrentLiabilities,
        bT1.totalCurrentAssets, bT1.totalCurrentLiabilities with
  | some a, some b, some c, some d =>
      .ok (if (a.div b).gt (c.div d) then 1 else 0)
  | _, _, _, _ => .error ()

/-- Test 7: `if shares_T <= shares_T_1: score += 1` - the one non-strict test;
a `None` on either side makes `<=` raise a `TypeError`. -/
def fscoreTest7 (bT bT1 : BalanceRow) : Except Unit ℕ :=
  match bT.commonStock, bT1.commonStock with
  | some a, some b => .ok (if a.le b then 1 else 0)
  | _, _ => .error ()

/-- Test 8: gross margin strictly higher at T than at T-1; cells read unguarded. -/
def fscoreTest8 (iT iT1 : IncomeRow) : Except Unit ℕ :=
  match iT.grossProfit, iT.totalRevenue, iT1.grossProfit, iT1.totalRevenue with
  | some a, some b, some c, some d =>
      .ok (if (a.div b).gt (c.div d) then 1 else 0)
  | _, _, _, _ => .error ()

/-- Test 9: asset turnover (revenue over the same average assets as test 3)
strictly higher at T than at T-1; revenues read unguarded. -/
def fscoreTest9 (iT iT1 : IncomeRow) (avgT avgT1 : PyFloat) : Except Unit ℕ :=
  match iT.totalRevenue, iT1.totalRevenue with
  | some a, some b =>
      .ok (if (a.div avgT).gt (b.div avgT1) then 1 else 0)
  | _, _ => .error ()

/-- The `try` body of `calculate_piotroski_f_score` on the extracted rows.
Any raising step makes the whole body fail (`except` path); otherwise the
score is the sum of the nine test contributions.  (The source sequences the
steps and aborts at the first raise; since all errors are collapsed to the
single `except` outcome, evaluating every step and failing when any fails is
observably the same computation.) -/
def fscore_body (iT iT1 : IncomeRow) (bT bT1 bT2 : BalanceRow) (cT : CashFlowRow) :
    Except Unit ℕ :=
  match avgAssets bT bT1, avgAssets bT1 bT2 with
  | .ok avgT, .ok avgT1 =>
    match fscoreTest3 iT iT1 avgT avgT1, fscoreTest5 bT bT1, fscoreTest6 bT bT1,
          fscoreTest7 bT bT1, fscoreTest8 iT iT1, fscoreTest9 iT iT1 avgT avgT1 with
    | .ok s3, .ok s5, .ok s6, .ok s7, .ok s8, .ok s9 =>
        .ok (fscoreTest1 iT + fscoreTest2 cT + s3 + fscoreTest4 iT cT + s5 + s6 + s7 + s8 + s9)
    | _, _, _, _, _, _ => .error ()
  | _, _ => .error ()

/-- The method `FundamentalAnalyzer.calculate_piotroski_f_score`: `some s` means the score
`s` was computed, stored as `ratios['Piotroski_F_Score']` and returned; `none`
means the method returned `None` and recorded nothing (insufficient history, or
an exception inside the `try` body).  Tables are oldest-first, as sorted by
`get_financial_statement`; `iloc[-k]` is position `length - k`. -/
def calculate_piotroski_f_score (incs : List IncomeRow) (bss : List BalanceRow)
    (cfs : List CashFlowRow) : Option ℕ :=
  if incs.length < 3 ∨ bss.length < 3 ∨ cfs.length < 1 then none
  else
    match incs[incs.length - 1]?, incs[incs.length - 2]?,
          bss[bss.length - 1]?, bss[bss.length - 2]?, bss[bss.length - 3]?,
          cfs[cfs.length - 1]? with
    | some iT, some iT1, some bT, some bT1, some bT2, some cT =>
        match fscore_body iT iT1 bT bT1 bT2 cT with
        | .ok s => some s
        | .error _ => none
    | _, _, _, _, _, _ => none

/-! ## GrowthEngine: `_calculate_cagr` and `calculate_historical_growth`

The CAGR computation applies the real power `(end/start) ** (1/periods)`, so
this part of the embedding works over `ℝ`.  A growth-engine cell is `none`
when the column is absent (then `_calculate_cagr` is handed Python `None`) and
`some x` when it holds the finite parsed value `x`; the claims settled against
this engine do not depend on `nan`/`inf` cells.  Python's short-circuit guard
`start is None or end is None or start <= 0 or periods == 0` is reproduced
verbatim. -/

/-- The module-level helper `_calculate_cagr(start_value, end_value, periods)`. -/
noncomputable def _calculate_cagr (start_value end_value : Option ℝ) (periods : ℕ) :
    Option ℝ :=
  match start_value, end_value with
  | some s, some e =>
      if s ≤ 0 ∨ periods = 0 then none
      else some ((e / s) ^ ((1 : ℝ) / periods) - 1)
  | _, _ => none

/-- The income-statement fields read by `calculate_historical_growth`. -/
structure GrowthRow where
  totalRevenue : Option ℝ := none
  netIncome : Option ℝ := none

/-- The method `FundamentalAnalyzer.calculate_historical_growth(years)`: the entries the
call adds to `self.ratios`, in insertion order.  Note that the source stores
the two keys even when `_calculate_cagr` returns `None` (the stored value is
then `None`), and that the key names are f-strings embedding
`actual_periods = min(years, len(table) - 1)`. -/
noncomputable def calculate_historical_growth (incs : List GrowthRow) (years : ℕ) :
    List (String × Option ℝ) :=
  if incs.length < 2 then []
  else if min years (incs.length - 1) = 0 then []
  else
    match incs[incs.length - 1 - min years (incs.length - 1)]?, incs[incs.length - 1]? with
    | some start_report, some end_report =>
        [("Revenue_CAGR_" ++ Nat.repr (min years (incs.length - 1)) ++ "Y",
          _calculate_cagr start_report.totalRevenue end_report.totalRevenue
            (min years (incs.length - 1))),
         ("Net_Income_CAGR_" ++ Nat.repr (min years (incs.length - 1)) ++ "Y",
          _calculate_cagr start_report.netIncome end_report.netIncome
            (min years (incs.length - 1)))]
    | _, _ => []

/-! ## Injectivity of `Nat.repr`

Needed to reason about the f-string metric keys: distinct effective windows
produce distinct key names. -/

/-- Decimal decoding of a digit string (inverse of `Nat.toDigits 10`). -/
def decDigits (l : List Char) : ℕ :=
  l.foldl (fun a c => 10 * a + (c.toNat - 48)) 0

theorem digitChar_decode : ∀ k : ℕ, k < 10 → (Nat.digitChar k).toNat - 48 = k := by decide

theorem toDigitsCore_append (fuel : ℕ) :
    ∀ (n : ℕ) (ds : List Char),
      Nat.toDigitsCore 10 fuel n ds = Nat.toDigitsCore 10 fuel n [] ++ ds := by
  induction fuel with
  | zero => intro n ds; simp [Nat.toDigitsCore]
  | succ f ih =>
    intro n ds
    simp only [Nat.toDigitsCore]
    by_cases h : n / 10 = 0
    · simp [h]
    · simp only [h, if_false]
      rw [ih (n / 10) (Nat.digitChar (n % 10) :: ds),
        ih (n / 10) (Nat.digitChar (n % 10) :: [])]
      simp

theorem decDigits_toDigitsCore (fuel : ℕ) :
    ∀ n : ℕ, n < fuel → decDigits (Nat.toDigitsCore 10 fuel n []) = n := by
  induction fuel with
  | zero => intro n hn; omega
  | succ f ih =>
    intro n hn
    simp only [Nat.toDigitsCore]
    by_cases h : n / 10 = 0
    · have hlt : n < 10 := by omega
      have hdec := digitChar_decode n hlt
      simp [h, decDigits, Nat.mod_eq_of_lt hlt, hdec]
    · have hdiv : n / 10 < f := by
        have h1 : n / 10 < n := Nat.div_lt_self (by omega) (by norm_num)
        omega
      simp only [h, if_false]
      rw [toDigitsCore_append f (n / 10) (Nat.digitChar (n % 10) :: [])]
      have hmod : n % 10 < 10 := Nat.mod_lt n (by omega)
      simp [decDigits, List.foldl_append, digitChar_decode (n % 10) hmod] at ih ⊢
      rw [ih (n / 10) hdiv]
      omega

theorem natRepr_injective : Function.Injective Nat.repr := by
  intro m n h
  have hdata : Nat.toDigits 10 m = Nat.toDigits 10 n := by
    have := congrArg String.data h
    simpa [Nat.repr, List.asString] using this
  have hm := decDigits_toDigitsCore (m + 1) m (Nat.lt_succ_self m)
  have hn := decDigits_toDigitsCore (n + 1) n (Nat.lt_succ_self n)
  unfold Nat.toDigits at hdata
  rw [hdata] at hm
  omega

/-! ## String-key facts for the growth-engine metric names -/

theorem revenueKey_inj (w y : ℕ)
    (h : "Revenue_CAGR_" ++ Nat.repr w ++ "Y" = "Revenue_CAGR_" ++ Nat.repr y ++ "Y") :
    w = y := by
  have hd := congrArg String.data h
  simp only [String.data_append, List.append_cancel_left_eq,
    List.append_cancel_right_eq] at hd
  exact natRepr_injective (String.ext hd)

theorem netIncomeKey_ne_revenueKey (s t : String) :
    ("Net_Income_CAGR_" ++ s ++ "Y") ≠ ("Revenue_CAGR_" ++ t ++ "Y") := by
  intro h
  have hd := congrArg String.data h
  simp [String.data_append, List.cons_append, List.cons.injEq] at hd

/-! ## Claims -/

/-- Claim **C7** (confirmed): CAGR round-trip.  For every `start > 0`, integer
`periods > 0` and growth rate `g` with `1 + g > 0`, feeding
`end = start * (1+g) ^ periods` into `_calculate_cagr` returns exactly `g`
(exact real arithmetic). -/
theorem cagr_roundtrip (s g : ℝ) (p : ℕ) (hs : 0 < s) (hp : 0 < p) (hg : 0 < 1 + g) :
    _calculate_cagr (some s) (some (s * (1 + g) ^ p)) p = some g := by
  have hcond : ¬(s ≤ 0 ∨ p = 0) := by
    push_neg
    exact ⟨hs, Nat.pos_iff_ne_zero.mp hp⟩
  simp only [_calculate_cagr, if_neg hcond]
  congr 1
  have hs' : s ≠ 0 := ne_of_gt hs
  have hdiv : s * (1 + g) ^ p / s = (1 + g) ^ p := by
    rw [mul_comm, mul_div_assoc, div_self hs', mul_one]
  rw [hdiv, ← Real.rpow_natCast (1 + g) p, ← Real.rpow_mul (le_of_lt hg)]
  rw [mul_one_div, div_self (Nat.cast_ne_zero.mpr (Nat.pos_iff_ne_zero.mp hp))]
  rw [Real.rpow_one]
  ring

theorem cagr_roundtrip_witness :
    (0 : ℝ) < 2 ∧ 0 < 1 ∧ (0 : ℝ) < 1 + 1 ∧
      _calculate_cagr (some 2) (some (2 * (1 + 1) ^ 1)) 1 = some 1 :=
  ⟨by norm_num, by norm_num, by norm_num,
    cagr_roundtrip 2 1 1 (by norm_num) (by norm_num) (by norm_num)⟩

/-- Claim **C9** (confirmed): F-Score test 7 (no dilution) uses a non-strict
comparison.  For balance rows carrying numeric common-stock values `a` at T and
`b` at T-1, the test scores its point exactly when `a ≤ b`; in particular equal
share counts score the point. -/
theorem fscore_test7_nonstrict (bT bT1 : BalanceRow) (a b : ℚ)
    (hT : bT.commonStock = some (.num a)) (hT1 : bT1.commonStock = some (.num b)) :
    (fscoreTest7 bT bT1 = .ok 1 ↔ a ≤ b) ∧ (a = b → fscoreTest7 bT bT1 = .ok 1) := by
  have hbase : fscoreTest7 bT bT1 = .ok (if a ≤ b then 1 else 0) := by
    simp [fscoreTest7, hT, hT1, PyFloat.le]
  refine ⟨?_, ?_⟩
  · rw [hbase]
    by_cases h : a ≤ b <;> simp [h]
  · intro h
    rw [hbase, if_pos (le_of_eq h)]

theorem fscore_test7_nonstrict_witness :
    fscoreTest7 { commonStock := some (.num 5) } { commonStock := some (.num 5) } = .ok 1 :=
  (fscore_test7_nonstrict { commonStock := some (.num 5) } { commonStock := some (.num 5) }
    5 5 rfl rfl).2 rfl

/-- Claim **C5** counterexample: the claim says a present net income of `0` with
nonzero revenue yields a margin of `0`; in the code `if net_income and
total_revenue` is Python truthiness, so a zero net income (falsy) omits the
metric.  (The zero-revenue part of the claim does hold: second conjunct.) -/
theorem net_profit_margin_zero_income_omitted :
    netProfitMargin { netIncome := some (.num 0), totalRevenue := some (.num 100) } = none ∧
    netProfitMargin { netIncome := some (.num 7), totalRevenue := some (.num 0) } = none := by
  constructor <;> norm_num [netProfitMargin, PyFloat.truthy]

/-- Claim **C5** (corrected): the margin `netIncome / totalRevenue` is computed
exactly when both operands are present and nonzero (Python truthiness), and
omitted when either operand is missing or zero — including the case of a zero
net income with nonzero revenue, which yields no entry rather than `0`. -/
theorem net_profit_margin_truthy_guard :
    (∀ (inc : IncomeRow) (a r : ℚ),
      inc.netIncome = some (.num a) → inc.totalRevenue = some (.num r) →
      netProfitMargin inc = if a ≠ 0 ∧ r ≠ 0 then some (.num (a / r)) else none) ∧
    (∀ inc : IncomeRow, inc.netIncome = none ∨ inc.totalRevenue = none →
      netProfitMargin inc = none) := by
  constructor
  · intro inc a r ha hr
    by_cases h0 : a ≠ 0 ∧ r ≠ 0
    · simp [netProfitMargin, ha, hr, PyFloat.truthy, PyFloat.div, h0.1, h0.2]
    · rw [not_and_or, not_not, not_not] at h0
      rcases h0 with h0 | h0 <;>
        simp [netProfitMargin, ha, hr, PyFloat.truthy, h0]
  · intro inc h
    rcases h with h | h <;> simp [netProfitMargin, h]

theorem net_profit_margin_truthy_guard_witness :
    netProfitMargin { netIncome := some (.num 10), totalRevenue := some (.num 100) }
      = some (.num (1 / 10)) := by
  rw [net_profit_margin_truthy_guard.1
    { netIncome := some (.num 10), totalRevenue := some (.num 100) } 10 100 rfl rfl]
  norm_num

/-- Claim **C6** counterexample: with `SharesOutstanding` absent the claim says only
the implied share price is omitted while enterprise and equity value are still
reported; the code returns `None` for the whole DCF instead. -/
theorem dcf_missing_shares_drops_all :
    run_simple_dcf ⟨some (.num 200), some (.num (-100))⟩
      { longTermDebt := some (.num 50), shortTermDebt := some (.num 10),
        cashAndCashEquivalentsAtCarryingValue := some (.num 30) }
      .absent (8 / 100) (9 / 100) (2 / 100) = none := rfl

/-- Claim **C6** (corrected): the DCF output is all-or-nothing.  Whenever shares
outstanding is absent, unparseable, or zero, `run_simple_dcf` returns no
result at all — the enterprise value and equity value are dropped together
with the implied share price. -/
theorem dcf_shares_guard_drops_everything (cf : CashFlowRow) (bal : BalanceRow)
    (growth_rate wacc terminal_growth : ℚ) :
    run_simple_dcf cf bal .absent growth_rate wacc terminal_growth = none ∧
    run_simple_dcf cf bal .bad growth_rate wacc terminal_growth = none ∧
    run_simple_dcf cf bal (.val 0) growth_rate wacc terminal_growth = none := by
  obtain ⟨ocf, capex⟩ := cf
  refine ⟨?_, ?_, ?_⟩ <;> cases ocf <;> cases capex <;> simp [run_simple_dcf]

/-- Claim **C1** (code_bug): the terminal-value division is not guarded.  With
`wacc == terminal_growth` (the spec's explicit test case) the division of the
`numpy.float64` numerator by `0.0` produces `+inf`, which leaks into the
returned enterprise value, equity value and implied share price instead of the
run being reported unavailable; with `wacc < terminal_growth` a spurious
finite result is returned. -/
theorem dcf_equal_rates_leak_infinity :
    run_simple_dcf ⟨some (.num 200), some (.num (-100))⟩ {} (.val 10) 0 (2 / 100) (2 / 100)
        = some ⟨.inf, .inf, .inf⟩ ∧
    (run_simple_dcf ⟨some (.num 200), some (.num (-100))⟩ {} (.val 10) 0 (1 / 100)
        (2 / 100)).isSome = true := by
  constructor <;>
    norm_num [run_simple_dcf, PyFloat.sub, PyFloat.fabs, PyFloat.mul, PyFloat.div, PyFloat.add]

/-- Claim **C2** counterexample: with a malformed `PERatio` (and every other field
well-formed) the whole ratio block is aborted — nothing at all is recorded,
not even the directly parseable `P/B_Ratio` or the computable net profit
margin — contradicting the claim that only the one bad ratio is omitted. -/
theorem ratios_bad_pe_aborts_rest :
    calculate_ratios
      { PERatio := .error (), PriceToBookRatio := .ok (.num 3),
        PriceToSalesRatioTTM := .ok (.num 4), DividendYield := .ok (.num (1 / 100)) }
      { netIncome := some (.num 10), totalRevenue := some (.num 100),
        grossProfit := some (.num 40) }
      { totalShareholderEquity := some (.num 50) } = [] ∧
    netProfitMargin
      { netIncome := some (.num 10), totalRevenue := some (.num 100),
        grossProfit := some (.num 40) } = some (.num (1 / 10)) := by
  constructor
  · rfl
  · norm_num [netProfitMargin, PyFloat.truthy, PyFloat.div]

/-- Claim **C2** (corrected): `calculate_ratios` runs in one `try` block, so a
missing or malformed overview field aborts that ratio AND every ratio computed
after it in program order (P/E, P/B, P/S, dividend yield, then the
profitability and solvency ratios); only the entries already inserted survive.
When all four overview parses succeed, the remaining ratios are computed
independently. -/
theorem ratios_single_try_aborts_suffix (ov : Overview) (inc : IncomeRow) (bal : BalanceRow) :
    (ov.PERatio = .error () → calculate_ratios ov inc bal = []) ∧
    (∀ pe pb, ov.PERatio = .ok pe → ov.PriceToBookRatio = .ok pb →
      ov.PriceToSalesRatioTTM = .error () →
      calculate_ratios ov inc bal = [("P/E_Ratio", pe), ("P/B_Ratio", pb)]) ∧
    (∀ pe pb ps dy, ov.PERatio = .ok pe → ov.PriceToBookRatio = .ok pb →
      ov.PriceToSalesRatioTTM = .ok ps → ov.DividendYield = .ok dy →
      calculate_ratios ov inc bal =
        ("P/E_Ratio", pe) :: ("P/B_Ratio", pb) :: ("P/S_Ratio", ps) ::
          ("Dividend_Yield", dy) :: profitabilityEntries inc bal) := by
  refine ⟨?_, ?_, ?_⟩
  · intro h
    simp [calculate_ratios, h]
  · intro pe pb h1 h2 h3
    simp [calculate_ratios, h1, h2, h3]
  · intro pe pb ps dy h1 h2 h3 h4
    simp [calculate_ratios, h1, h2, h3, h4]

theorem ratios_single_try_aborts_suffix_witness :
    calculate_ratios
      { PERatio := .ok (.num 30), PriceToBookRatio := .ok (.num 3),
        PriceToSalesRatioTTM := .error (), DividendYield := .ok (.num 1) }
      {} {} = [("P/E_Ratio", .num 30), ("P/B_Ratio", .num 3)] :=
  (ratios_single_try_aborts_suffix
    { PERatio := .ok (.num 30), PriceToBookRatio := .ok (.num 3),
      PriceToSalesRatioTTM := .error (), DividendYield := .ok (.num 1) }
    {} {}).2.1 (.num 30) (.num 3) rfl rfl rfl

/-! ## F-Score support lemmas -/

theorem boolIndicator_le (b : Bool) : (if b then (1 : ℕ) else 0) ≤ 1 := by
  cases b <;> simp

theorem fscoreTest1_le (iT : IncomeRow) : fscoreTest1 iT ≤ 1 := by
  unfold fscoreTest1
  split
  · exact boolIndicator_le _
  · omega

theorem fscoreTest2_le (cT : CashFlowRow) : fscoreTest2 cT ≤ 1 := by
  unfold fscoreTest2
  split
  · exact boolIndicator_le _
  · omega

theorem fscoreTest4_le (iT : IncomeRow) (cT : CashFlowRow) : fscoreTest4 iT cT ≤ 1 := by
  unfold fscoreTest4
  split
  · exact boolIndicator_le _
  · omega

theorem avgAssets_ok (bP bP1 : BalanceRow) (x y : PyFloat)
    (hx : bP.totalAssets = some x) (hy : bP1.totalAssets = some y) :
    avgAssets bP bP1 = .ok ((x.add y).div (.num 2)) := by
  simp [avgAssets, hx, hy]

theorem fscoreTest3_ok (iT iT1 : IncomeRow) (avgT avgT1 : PyFloat) (a b : PyFloat)
    (ha : iT.netIncome = some a) (hb : iT1.netIncome = some b) :
    ∃ k, fscoreTest3 iT iT1 avgT avgT1 = .ok k ∧ k ≤ 1 := by
  unfold fscoreTest3
  split
  · exact ⟨if (a.div avgT).gt (b.div avgT1) then 1 else 0, by simp [ha, hb], boolIndicator_le _⟩
  · exact ⟨0, rfl, by omega⟩

theorem fscoreTest5_ok (bT bT1 : BalanceRow) (a b c d : PyFloat)
    (h1 : bT.longTermDebt = some a) (h2 : bT.totalAssets = some b)
    (h3 : bT1.longTermDebt = some c) (h4 : bT1.totalAssets = some d) :
    ∃ k, fscoreTest5 bT bT1 = .ok k ∧ k ≤ 1 :=
  ⟨if (a.div b).lt (c.div d) then 1 else 0, by simp [fscoreTest5, h1, h2, h3, h4],
    boolIndicator_le _⟩

theorem fscoreTest6_ok (bT bT1 : BalanceRow) (a b c d : PyFloat)
    (h1 : bT.totalCurrentAssets = some a) (h2 : bT.totalCurrentLiabilities = some b)
    (h3 : bT1.totalCurrentAssets = some c) (h4 : bT1.totalCurrentLiabilities = some d) :
    ∃ k, fscoreTest6 bT bT1 = .ok k ∧ k ≤ 1 :=
  ⟨if (a.div b).gt (c.div d) then 1 else 0, by simp [fscoreTest6, h1, h2, h3, h4],
    boolIndicator_le _⟩

theorem fscoreTest7_ok (bT bT1 : BalanceRow) (a b : PyFloat)
    (h1 : bT.commonStock = some a) (h2 : bT1.commonStock = some b) :
    ∃ k, fscoreTest7 bT bT1 = .ok k ∧ k ≤ 1 :=
  ⟨if a.le b then 1 else 0, by simp [fscoreTest7, h1, h2], boolIndicator_le _⟩

theorem fscoreTest8_ok (iT iT1 : IncomeRow) (a b c d : PyFloat)
    (h1 : iT.grossProfit = some a) (h2 : iT.totalRevenue = some b)
    (h3 : iT1.grossProfit = some c) (h4 : iT1.totalRevenue = some d) :
    ∃ k, fscoreTest8 iT iT1 = .ok k ∧ k ≤ 1 :=
  ⟨if (a.div b).gt (c.div d) then 1 else 0, by simp [fscoreTest8, h1, h2, h3, h4],
    boolIndicator_le _⟩

theorem fscoreTest9_ok (iT iT1 : IncomeRow) (avgT avgT1 : PyFloat) (a b : PyFloat)
    (h1 : iT.totalRevenue = some a) (h2 : iT1.totalRevenue = some b) :
    ∃ k, fscoreTest9 iT iT1 avgT avgT1 = .ok k ∧ k ≤ 1 :=
  ⟨if (a.div avgT).gt (b.div avgT1) then 1 else 0, by simp [fscoreTest9, h1, h2],
    boolIndicator_le _⟩

theorem fscore_body_le_nine (iT iT1 : IncomeRow) (bT bT1 bT2 : BalanceRow) (cT : CashFlowRow)
    (hni : iT.netIncome.isSome) (hni1 : iT1.netIncome.isSome)
    (hrev : iT.totalRevenue.isSome) (hrev1 : iT1.totalRevenue.isSome)
    (hgp : iT.grossProfit.isSome) (hgp1 : iT1.grossProfit.isSome)
    (hta : bT.totalAssets.isSome) (hta1 : bT1.totalAssets.isSome) (hta2 : bT2.totalAssets.isSome)
    (hltd : bT.longTermDebt.isSome) (hltd1 : bT1.longTermDebt.isSome)
    (hca : bT.totalCurrentAssets.isSome) (hca1 : bT1.totalCurrentAssets.isSome)
    (hcl : bT.totalCurrentLiabilities.isSome) (hcl1 : bT1.totalCurrentLiabilities.isSome)
    (hcs : bT.commonStock.isSome) (hcs1 : bT1.commonStock.isSome) :
    ∃ s, fscore_body iT iT1 bT bT1 bT2 cT = .ok s ∧ s ≤ 9 := by
  obtain ⟨niT, hniT⟩ := Option.isSome_iff_exists.mp hni
  obtain ⟨niT1, hniT1⟩ := Option.isSome_iff_exists.mp hni1
  obtain ⟨revT, hrevT⟩ := Option.isSome_iff_exists.mp hrev
  obtain ⟨revT1, hrevT1⟩ := Option.isSome_iff_exists.mp hrev1
  obtain ⟨gpT, hgpT⟩ := Option.isSome_iff_exists.mp hgp
  obtain ⟨gpT1, hgpT1⟩ := Option.isSome_iff_exists.mp hgp1
  obtain ⟨taT, htaT⟩ := Option.isSome_iff_exists.mp hta
  obtain ⟨taT1, htaT1⟩ := Option.isSome_iff_exists.mp hta1
  obtain ⟨taT2, htaT2⟩ := Option.isSome_iff_exists.mp hta2
  obtain ⟨ltdT, hltdT⟩ := Option.isSome_iff_exists.mp hltd
  obtain ⟨ltdT1, hltdT1⟩ := Option.isSome_iff_exists.mp hltd1
  obtain ⟨caT, hcaT⟩ := Option.isSome_iff_exists.mp hca
  obtain ⟨caT1, hcaT1⟩ := Option.isSome_iff_exists.mp hca1
  obtain ⟨clT, hclT⟩ := Option.isSome_iff_exists.mp hcl
  obtain ⟨clT1, hclT1⟩ := Option.isSome_iff_exists.mp hcl1
  obtain ⟨csT, hcsT⟩ := Option.isSome_iff_exists.mp hcs
  obtain ⟨csT1, hcsT1⟩ := Option.isSome_iff_exists.mp hcs1
  have havgT := avgAssets_ok bT bT1 taT taT1 htaT htaT1
  have havgT1 := avgAssets_ok bT1 bT2 taT1 taT2 htaT1 htaT2
  obtain ⟨k3, h3, h3le⟩ :=
    fscoreTest3_ok iT iT1 ((taT.add taT1).div (.num 2)) ((taT1.add taT2).div (.num 2))
      niT niT1 hniT hniT1
  obtain ⟨k5, h5, h5le⟩ := fscoreTest5_ok bT bT1 ltdT taT ltdT1 taT1 hltdT htaT hltdT1 htaT1
  obtain ⟨k6, h6, h6le⟩ := fscoreTest6_ok bT bT1 caT clT caT1 clT1 hcaT hclT hcaT1 hclT1
  obtain ⟨k7, h7, h7le⟩ := fscoreTest7_ok bT bT1 csT csT1 hcsT hcsT1
  obtain ⟨k8, h8, h8le⟩ := fscoreTest8_ok iT iT1 gpT revT gpT1 revT1 hgpT hrevT hgpT1 hrevT1
  obtain ⟨k9, h9, h9le⟩ :=
    fscoreTest9_ok iT iT1 ((taT.add taT1).div (.num 2)) ((taT1.add taT2).div (.num 2))
      revT revT1 hrevT hrevT1
  refine ⟨fscoreTest1 iT + fscoreTest2 cT + k3 + fscoreTest4 iT cT + k5 + k6 + k7 + k8 + k9,
    ?_, ?_⟩
  · simp [fscore_body, havgT, havgT1, h3, h5, h6, h7, h8, h9]
  · have b1 := fscoreTest1_le iT
    have b2 := fscoreTest2_le cT
    have b4 := fscoreTest4_le iT cT
    omega

/-! ## Concrete rows used by witnesses and counterexamples -/

/-- An income row with every used field present. -/
def fullInc : IncomeRow :=
  { netIncome := some (.num 10), totalRevenue := some (.num 100),
    grossProfit := some (.num 40) }

/-- A balance row with every used field present. -/
def fullBal : BalanceRow :=
  { totalAssets := some (.num 200), totalShareholderEquity := some (.num 50),
    longTermDebt := some (.num 20), shortTermDebt := some (.num 5),
    totalCurrentAssets := some (.num 80), totalCurrentLiabilities := some (.num 40),
    commonStock := some (.num 7), cashAndCashEquivalentsAtCarryingValue := some (.num 30) }

/-- A cash-flow row with both used fields present. -/
def fullCf : CashFlowRow :=
  { operatingCashflow := some (.num 15), capitalExpenditures := some (.num (-12)) }

/-- Variant of `fullBal` with the `commonStock` column absent from the table. -/
def fullBalNoStock : BalanceRow :=
  { totalAssets := some (.num 200), totalShareholderEquity := some (.num 50),
    longTermDebt := some (.num 20), shortTermDebt := some (.num 5),
    totalCurrentAssets := some (.num 80), totalCurrentLiabilities := some (.num 40),
    commonStock := none, cashAndCashEquivalentsAtCarryingValue := some (.num 30) }

/-- An income row whose cells are all `nan` (present but unparseable fields). -/
def nanInc : IncomeRow :=
  { netIncome := some PyFloat.nan, totalRevenue := some PyFloat.nan,
    grossProfit := some PyFloat.nan }

/-- A balance row whose cells are all `nan`. -/
def nanBal : BalanceRow :=
  { totalAssets := some PyFloat.nan, totalShareholderEquity := some PyFloat.nan,
    longTermDebt := some PyFloat.nan, shortTermDebt := some PyFloat.nan,
    totalCurrentAssets := some PyFloat.nan, totalCurrentLiabilities := some PyFloat.nan,
    commonStock := some PyFloat.nan, cashAndCashEquivalentsAtCarryingValue := some PyFloat.nan }

/-- A cash-flow row whose cells are all `nan`. -/
def nanCf : CashFlowRow :=
  { operatingCashflow := some PyFloat.nan, capitalExpenditures := some PyFloat.nan }

/-- Claim **C3** counterexample: all three row-count preconditions hold (3 income
rows, 3 balance rows, 1 cash-flow row), yet the F-Score is NOT recorded: the
rows carry no `totalAssets` column, so `avg_assets` raises a `TypeError` and
the whole computation returns `None`, against the claim that the preconditions
guarantee a recorded score in `[0, 9]`. -/
theorem fscore_preconditions_not_sufficient :
    (List.replicate 3 ({} : IncomeRow)).length = 3 ∧
    (List.replicate 3 ({} : BalanceRow)).length = 3 ∧
    ([({} : CashFlowRow)]).length = 1 ∧
    calculate_piotroski_f_score (List.replicate 3 {}) (List.replicate 3 {}) [{}] = none :=
  ⟨rfl, rfl, rfl, rfl⟩

/-- Claim **C3** (corrected): (1) whenever a row-count precondition fails the whole
score is skipped (`None`, nothing recorded); (2) when the preconditions hold
AND every field the nine tests read unguarded is present in the relevant rows,
the computed score is recorded and is an integer between 0 and 9.  The
preconditions alone are not sufficient: a field absent from the table aborts
the whole computation (see the counterexample). -/
theorem fscore_skip_and_range (incs : List IncomeRow) (bss : List BalanceRow)
    (cfs : List CashFlowRow) :
    (incs.length < 3 ∨ bss.length < 3 ∨ cfs.length < 1 →
      calculate_piotroski_f_score incs bss cfs = none) ∧
    (∀ iT iT1 bT bT1 bT2 cT,
      incs[incs.length - 1]? = some iT → incs[incs.length - 2]? = some iT1 →
      bss[bss.length - 1]? = some bT → bss[bss.length - 2]? = some bT1 →
      bss[bss.length - 3]? = some bT2 → cfs[cfs.length - 1]? = some cT →
      3 ≤ incs.length → 3 ≤ bss.length → 1 ≤ cfs.length →
      iT.netIncome.isSome → iT1.netIncome.isSome →
      iT.totalRevenue.isSome → iT1.totalRevenue.isSome →
      iT.grossProfit.isSome → iT1.grossProfit.isSome →
      bT.totalAssets.isSome → bT1.totalAssets.isSome → bT2.totalAssets.isSome →
      bT.longTermDebt.isSome → bT1.longTermDebt.isSome →
      bT.totalCurrentAssets.isSome → bT1.totalCurrentAssets.isSome →
      bT.totalCurrentLiabilities.isSome → bT1.totalCurrentLiabilities.isSome →
      bT.commonStock.isSome → bT1.commonStock.isSome →
      ∃ s, calculate_piotroski_f_score incs bss cfs = some s ∧ s ≤ 9) := by
  constructor
  · intro h
    unfold calculate_piotroski_f_score
    rw [if_pos h]
  · intro iT iT1 bT bT1 bT2 cT e1 e2 e3 e4 e5 e6 l1 l2 l3
    intro p1 p2 p3 p4 p5 p6 p7 p8 p9 p10 p11 p12 p13 p14 p15 p16 p17
    obtain ⟨s, hs, hsle⟩ := fscore_body_le_nine iT iT1 bT bT1 bT2 cT
      p1 p2 p3 p4 p5 p6 p7 p8 p9 p10 p11 p12 p13 p14 p15 p16 p17
    refine ⟨s, ?_, hsle⟩
    unfold calculate_piotroski_f_score
    rw [if_neg (by omega)]
    rw [e1, e2, e3, e4, e5, e6]
    simp [hs]

theorem fscore_skip_and_range_witness :
    calculate_piotroski_f_score [fullInc, fullInc] (List.replicate 3 fullBal) [fullCf] = none ∧
    (calculate_piotroski_f_score [fullInc, fullInc, fullInc] (List.replicate 3 fullBal)
      [fullCf]).isSome = true := by
  constructor
  · exact (fscore_skip_and_range [fullInc, fullInc] (List.replicate 3 fullBal) [fullCf]).1
      (by norm_num)
  · obtain ⟨s, hs, hsle⟩ :=
      (fscore_skip_and_range [fullInc, fullInc, fullInc] (List.replicate 3 fullBal)
        [fullCf]).2 fullInc fullInc fullBal fullBal fullBal fullCf
        rfl rfl rfl rfl rfl rfl (by norm_num) (by norm_num) (by norm_num)
        rfl rfl rfl rfl rfl rfl rfl rfl rfl rfl rfl rfl rfl rfl rfl rfl rfl
    rw [hs]
    rfl

/-- Claim **C4** counterexample: the row-count preconditions hold and every operand
is present except the `commonStock` column (absent from the table).  The claim
says test 7 alone should contribute 0; instead `None <= None` raises a
`TypeError` and the WHOLE F-Score computation fails (`None`, nothing
recorded), even though all other eight tests had their operands. -/
theorem fscore_absent_operand_aborts :
    calculate_piotroski_f_score [fullInc, fullInc, fullInc]
      [fullBalNoStock, fullBalNoStock, fullBalNoStock] [fullCf] = none := by
  norm_num [calculate_piotroski_f_score, fscore_body, avgAssets, fscoreTest3, fscoreTest5,
    fscoreTest6, fscoreTest7, fscoreTest8, fscoreTest9, fullInc, fullBalNoStock, fullCf,
    PyFloat.add, PyFloat.div, PyFloat.gt, PyFloat.lt, PyFloat.le]

/-- Claim **C4** (corrected): only an UNPARSEABLE operand (`nan`) silently
contributes 0 to its test without disturbing the rest — with every cell `nan`
the whole score still computes and is `0`.  An operand ABSENT from the table
(`None`) is tolerated only by the truthiness-guarded tests 1, 2 and 4 (which
score 0); in the remaining tests it raises and aborts the whole F-Score (see
the counterexample). -/
theorem fscore_nan_operands_score_zero :
    (∀ a b c : ℕ, 3 ≤ a → 3 ≤ b → 1 ≤ c →
      calculate_piotroski_f_score (List.replicate a nanInc) (List.replicate b nanBal)
        (List.replicate c nanCf) = some 0) ∧
    (∀ iT : IncomeRow, iT.netIncome = none → fscoreTest1 iT = 0) ∧
    (∀ cT : CashFlowRow, cT.operatingCashflow = none → fscoreTest2 cT = 0) ∧
    (∀ (iT : IncomeRow) (cT : CashFlowRow),
      iT.netIncome = none ∨ cT.operatingCashflow = none → fscoreTest4 iT cT = 0) := by
  refine ⟨?_, ?_, ?_, ?_⟩
  · intro a b c ha hb hc
    have e1 : (List.replicate a nanInc)[(List.replicate a nanInc).length - 1]? = some nanInc := by
      rw [List.getElem?_eq_getElem (by simp; omega)]
      simp
    have e2 : (List.replicate a nanInc)[(List.replicate a nanInc).length - 2]? = some nanInc := by
      rw [List.getElem?_eq_getElem (by simp; omega)]
      simp
    have e3 : (List.replicate b nanBal)[(List.replicate b nanBal).length - 1]? = some nanBal := by
      rw [List.getElem?_eq_getElem (by simp; omega)]
      simp
    have e4 : (List.replicate b nanBal)[(List.replicate b nanBal).length - 2]? = some nanBal := by
      rw [List.getElem?_eq_getElem (by simp; omega)]
      simp
    have e5 : (List.replicate b nanBal)[(List.replicate b nanBal).length - 3]? = some nanBal := by
      rw [List.getElem?_eq_getElem (by simp; omega)]
      simp
    have e6 : (List.replicate c nanCf)[(List.replicate c nanCf).length - 1]? = some nanCf := by
      rw [List.getElem?_eq_getElem (by simp; omega)]
      simp
    unfold calculate_piotroski_f_score
    rw [if_neg (by simp; omega)]
    rw [e1, e2, e3, e4, e5, e6]
    rfl
  · intro iT h
    simp [fscoreTest1, h]
  · intro cT h
    simp [fscoreTest2, h]
  · intro iT cT h
    rcases h with h | h <;> simp [fscoreTest4, h]

theorem fscore_nan_operands_score_zero_witness :
    calculate_piotroski_f_score (List.replicate 3 nanInc) (List.replicate 3 nanBal)
      (List.replicate 1 nanCf) = some 0 :=
  fscore_nan_operands_score_zero.1 3 3 1 (by norm_num) (by norm_num) (by norm_num)

/-- When the effective window `min(years, rows - 1)` is positive, the growth
engine stores exactly two entries, keyed by the effective window. -/
theorem growth_entries (incs : List GrowthRow) (years : ℕ)
    (h : 0 < min years (incs.length - 1)) :
    ∃ sr er, incs[incs.length - 1 - min years (incs.length - 1)]? = some sr ∧
      incs[incs.length - 1]? = some er ∧
      calculate_historical_growth incs years =
        [("Revenue_CAGR_" ++ Nat.repr (min years (incs.length - 1)) ++ "Y",
          _calculate_cagr sr.totalRevenue er.totalRevenue (min years (incs.length - 1))),
         ("Net_Income_CAGR_" ++ Nat.repr (min years (incs.length - 1)) ++ "Y",
          _calculate_cagr sr.netIncome er.netIncome (min years (incs.length - 1)))] := by
  have hlen : ¬ incs.length < 2 := by omega
  have hne : ¬ min years (incs.length - 1) = 0 := by omega
  obtain ⟨sr, e1⟩ : ∃ x, incs[incs.length - 1 - min years (incs.length - 1)]? = some x := by
    rw [List.getElem?_eq_getElem (by omega)]
    exact ⟨_, rfl⟩
  obtain ⟨er, e2⟩ : ∃ x, incs[incs.length - 1]? = some x := by
    rw [List.getElem?_eq_getElem (by omega)]
    exact ⟨_, rfl⟩
  refine ⟨sr, er, e1, e2, ?_⟩
  unfold calculate_historical_growth
  rw [if_neg hlen, if_neg hne, e1, e2]

/-- Claim **C8** (confirmed): the growth computation uses the effective window
`min(requested years, rows - 1)`: when it is 0 (in particular with fewer than
2 rows) nothing is computed and both growth metrics stay unavailable; when it
is positive both metrics are stored under keys naming that effective window. -/
theorem growth_effective_window (incs : List GrowthRow) (years : ℕ) :
    (min years (incs.length - 1) = 0 → calculate_historical_growth incs years = []) ∧
    (0 < min years (incs.length - 1) →
      (calculate_historical_growth incs years).map Prod.fst =
        ["Revenue_CAGR_" ++ Nat.repr (min years (incs.length - 1)) ++ "Y",
         "Net_Income_CAGR_" ++ Nat.repr (min years (incs.length - 1)) ++ "Y"]) := by
  constructor
  · intro h
    unfold calculate_historical_growth
    split <;> rfl
  · intro h
    obtain ⟨sr, er, _, _, hout⟩ := growth_entries incs years h
    rw [hout]
    rfl

theorem growth_effective_window_witness :
    calculate_historical_growth [{ totalRevenue := some 1, netIncome := some 1 }] 5 = [] ∧
    (calculate_historical_growth
        [{ totalRevenue := some 1, netIncome := some 1 },
         { totalRevenue := some 1, netIncome := some 1 },
         { totalRevenue := some 1, netIncome := some 1 }] 5).map Prod.fst =
      ["Revenue_CAGR_" ++ Nat.repr 2 ++ "Y", "Net_Income_CAGR_" ++ Nat.repr 2 ++ "Y"] := by
  constructor
  · exact (growth_effective_window
      [{ totalRevenue := some 1, netIncome := some 1 }] 5).1 (by norm_num)
  · have h := (growth_effective_window
      [{ totalRevenue := some 1, netIncome := some 1 },
       { totalRevenue := some 1, netIncome := some 1 },
       { totalRevenue := some 1, netIncome := some 1 }] 5).2 (by norm_num)
    norm_num at h ⊢
    exact h

/-- Claim **C10** (confirmed): the growth metric keys embed the effective window
`min(years, n - 1)`, so when `n - 1 < years` the stored keys name `n - 1` and
no key naming the requested window exists — a downstream lookup of
`"Revenue_CAGR_<years>Y"` (for the program, `"Revenue_CAGR_5Y"`) finds
nothing. -/
theorem growth_key_embeds_window (incs : List GrowthRow) (years : ℕ)
    (h2 : 2 ≤ incs.length) (hlt : incs.length - 1 < years) :
    (calculate_historical_growth incs years).map Prod.fst =
      ["Revenue_CAGR_" ++ Nat.repr (incs.length - 1) ++ "Y",
       "Net_Income_CAGR_" ++ Nat.repr (incs.length - 1) ++ "Y"] ∧
    (calculate_historical_growth incs years).lookup
      ("Revenue_CAGR_" ++ Nat.repr years ++ "Y") = none := by
  have hmin : min years (incs.length - 1) = incs.length - 1 := by omega
  have hpos : 0 < min years (incs.length - 1) := by omega
  obtain ⟨sr, er, _, _, hout⟩ := growth_entries incs years hpos
  rw [hmin] at hout
  constructor
  · rw [hout]
    rfl
  · rw [hout]
    have hk1 : (("Revenue_CAGR_" ++ Nat.repr years ++ "Y")
        == ("Revenue_CAGR_" ++ Nat.repr (incs.length - 1) ++ "Y")) = false := by
      rw [beq_eq_false_iff_ne]
      intro hcontra
      have := revenueKey_inj years (incs.length - 1) hcontra
      omega
    have hk2 : (("Revenue_CAGR_" ++ Nat.repr years ++ "Y")
        == ("Net_Income_CAGR_" ++ Nat.repr (incs.length - 1) ++ "Y")) = false := by
      rw [beq_eq_false_iff_ne]
      intro hcontra
      exact netIncomeKey_ne_revenueKey (Nat.repr (incs.length - 1)) (Nat.repr years) hcontra.symm
    simp [List.lookup, hk1, hk2]

theorem growth_key_embeds_window_witness :
    (calculate_historical_growth
        [{ totalRevenue := some 1, netIncome := some 1 },
         { totalRevenue := some 1, netIncome := some 1 }] 5).lookup
      ("Revenue_CAGR_" ++ Nat.repr 5 ++ "Y") = none :=
  (growth_key_embeds_window
    [{ totalRevenue := some 1, netIncome := some 1 },
     { totalRevenue := some 1, netIncome := some 1 }] 5
    (by norm_num) (by norm_num)).2
